import Mathlib

/-!
Verification development for the sapphire-itsm support-core service.

The definitions below are shallow embeddings of the Python source under
`services/support-core/app`.  Machine floats used for confidence and
similarity scores are modelled as exact rationals (`ℚ`); decimal literals
such as `0.78` are written `mkRat 78 100`.  Database tables are modelled
as lists of rows, SQLAlchemy sessions as explicit state passing, and
`datetime` values as integer minutes.
-/

/-! ## String helpers

Python `str.lower()`, `str.split()` (whitespace tokenisation),
`str.split(sep)` and substring containment (`LIKE '%x%'`), embedded as
structurally recursive functions over `List Char` so that they evaluate
inside the kernel.
-/

/-- Embeds Python `str.lower()` (ASCII case folding via `Char.toLower`). -/
def toLowerStr (s : String) : String := ⟨s.data.map Char.toLower⟩

/-- Accumulator-style whitespace splitter: mirrors Python `str.split()`
on spaces, dropping empty tokens. -/
def splitWordsAux : List Char → List Char → List String
  | [], cur => if cur.isEmpty then [] else [⟨cur.reverse⟩]
  | c :: rest, cur =>
    if c = ' ' then
      (if cur.isEmpty then splitWordsAux rest [] else String.mk cur.reverse :: splitWordsAux rest [])
    else splitWordsAux rest (c :: cur)

/-- Token list of a string, deduplicated: models Python `set(text.split())`
as a `List` without duplicates. -/
def wordsOf (s : String) : List String := (splitWordsAux s.data []).dedup

/-- Splits on a separator character, keeping empty parts: mirrors Python
`str.split(sep)` (always returns at least one part). -/
def splitOnCharAux (sep : Char) : List Char → List Char → List (List Char)
  | [], cur => [cur.reverse]
  | c :: rest, cur =>
    if c = sep then cur.reverse :: splitOnCharAux sep rest []
    else splitOnCharAux sep rest (c :: cur)

/-- Models Python `message[:50]` and friends. -/
def strTake (n : Nat) (s : String) : String := ⟨s.data.take n⟩

/-- Checks whether `needle` occurs as a contiguous sublist of `hay`. -/
def listIsInfix (needle : List Char) : List Char → Bool
  | [] => needle.isEmpty
  | c :: rest => needle.isPrefixOf (c :: rest) || listIsInfix needle rest

/-- Substring containment: models SQL `LIKE '%needle%'` on a pattern free
of wildcard metacharacters. -/
def containsSubstr (hay needle : String) : Bool := listIsInfix needle.data hay.data

/-! ## Shared data model -/

/-- Embeds `app.models.tenant.PlanTier`. -/
inductive PlanTier
  | tier0
  | tier1
  | tier2
deriving DecidableEq, Repr

/-- Embeds `app.models.tenant.Tenant` (the columns the verified services
read). -/
structure Tenant where
  id : Nat
  name : String
  primaryDomain : Option String
  planTier : PlanTier
deriving DecidableEq, Repr

/-! ## KB Update Agent (`app/services/kb_update_agent.py`) -/

/-- Size of `set(words1) & set(words2)` on deduplicated token lists. -/
def jaccardInterLen (words1 words2 : List String) : Nat :=
  (words1.filter (fun w => w ∈ words2)).length

/-- Size of `set(words1) | set(words2)` on deduplicated token lists. -/
def jaccardUnionLen (words1 words2 : List String) : Nat :=
  (words1 ++ words2.filter (fun w => w ∉ words1)).length

/-- Embeds `KBUpdateAgent._calculate_text_similarity`: word-set Jaccard
similarity with the source's emptiness guards.  The rational
`intersection / union` is built with `mkRat` (shown equal to division in
`calcTextSimilarity_eq_div` below) so that it evaluates in the kernel.
The callers in `find_similar_articles` pass both texts already
lowercased. -/
def calcTextSimilarity (text1 text2 : String) : ℚ :=
  if text1 = "" ∨ text2 = "" then 0 else
  let words1 := wordsOf text1
  let words2 := wordsOf text2
  if words1 = [] ∨ words2 = [] then 0 else
  let inter := jaccardInterLen words1 words2
  let union := jaccardUnionLen words1 words2
  if union = 0 then 0 else mkRat inter union

/-- The `mkRat` in `calcTextSimilarity` is exactly the source's float
division `intersection / union`. -/
theorem calcTextSimilarity_eq_div (i u : Nat) : mkRat i u = (i : ℚ) / (u : ℚ) := by
  rw [Rat.mkRat_eq_div]
  norm_num

/-- Candidate article as assembled by `find_similar_articles`: only the
fields `decide_update_or_create` reads. -/
structure KBCandidate where
  title : String
  similarity : ℚ
deriving DecidableEq, Repr

/-- Embeds `KBUpdateAgent.decide_update_or_create`. -/
def decideUpdateOrCreate (candidates : List KBCandidate) (aiConfidence : ℚ) : String :=
  if aiConfidence < mkRat 75 100 then "skip"
  else
    match candidates with
    | [] => "create"
    | bestMatch :: _ =>
      if bestMatch.similarity > mkRat 85 100 then "update"
      else if bestMatch.similarity ≥ mkRat 6 10 then "update"
      else "create"

/-- Spec-side definition of the similarity score, following the spec's
wording: word-set Jaccard index |intersection| / |union| of the lowercased
token sets, defined as 0 when either set is empty.  Compared against the
source-derived `calcTextSimilarity` in claim C6. -/
def jaccardSpecSim (t1 t2 : String) : ℚ :=
  let W1 := (wordsOf t1).toFinset
  let W2 := (wordsOf t2).toFinset
  if W1 = ∅ ∨ W2 = ∅ then 0
  else ((W1 ∩ W2).card : ℚ) / ((W1 ∪ W2).card : ℚ)

theorem wordsOf_nodup (s : String) : (wordsOf s).Nodup := List.nodup_dedup _

theorem jaccardInterLen_card (w1 w2 : List String) (h1 : w1.Nodup) :
    jaccardInterLen w1 w2 = (w1.toFinset ∩ w2.toFinset).card := by
  unfold jaccardInterLen
  have hn : (w1.filter (fun w => w ∈ w2)).Nodup := h1.filter _
  rw [← List.toFinset_card_of_nodup hn]
  congr 1
  ext a
  simp [List.mem_filter, Finset.mem_inter, List.mem_toFinset]

theorem jaccardUnionLen_card (w1 w2 : List String) (h1 : w1.Nodup) (h2 : w2.Nodup) :
    jaccardUnionLen w1 w2 = (w1.toFinset ∪ w2.toFinset).card := by
  unfold jaccardUnionLen
  have hn : (w1 ++ w2.filter (fun w => w ∉ w1)).Nodup := by
    refine List.Nodup.append h1 (h2.filter _) ?_
    intro a ha hb
    have := List.of_mem_filter hb
    simp at this
    exact this ha
  rw [← List.toFinset_card_of_nodup hn]
  congr 1
  ext a
  simp only [List.toFinset_append, Finset.mem_union, List.mem_toFinset, List.mem_filter,
    decide_not, Bool.not_eq_eq_eq_not, Bool.not_true, decide_eq_false_iff_not]
  constructor
  · rintro (ha | ⟨ha, _⟩)
    · exact Or.inl ha
    · exact Or.inr ha
  · rintro (ha | ha)
    · exact Or.inl ha
    · by_cases hm : a ∈ w1
      · exact Or.inl hm
      · exact Or.inr ⟨ha, hm⟩

theorem calcTextSimilarity_eq_specSim (t1 t2 : String) :
    calcTextSimilarity t1 t2 = jaccardSpecSim t1 t2 := by
  unfold calcTextSimilarity jaccardSpecSim
  simp only [List.toFinset_eq_empty_iff]
  by_cases h0 : t1 = "" ∨ t2 = ""
  · rw [if_pos h0]
    rcases h0 with h | h <;> subst h <;> simp [wordsOf, splitWordsAux]
  · rw [if_neg h0]
    by_cases hw : wordsOf t1 = [] ∨ wordsOf t2 = []
    · rw [if_pos hw, if_pos hw]
    · rw [if_neg hw, if_neg hw]
      push_neg at hw
      have hu : jaccardUnionLen (wordsOf t1) (wordsOf t2) ≠ 0 := by
        unfold jaccardUnionLen
        simp only [List.length_append, ne_eq, Nat.add_eq_zero, List.length_eq_zero, not_and]
        intro h
        exact absurd h hw.1
      rw [if_neg hu, calcTextSimilarity_eq_div,
        jaccardInterLen_card _ _ (wordsOf_nodup t1),
        jaccardUnionLen_card _ _ (wordsOf_nodup t1) (wordsOf_nodup t2)]

/-- C6: `decide_update_or_create` returns `skip` whenever confidence < 0.75;
otherwise `create` when there are no candidates; otherwise `update` when the
best-match similarity is > 0.85 or in [0.60, 0.85] and `create` when it is
< 0.60.  The titles "VPN connection timeout" and "VPN connection timeout
issue" (lowercased as `find_similar_articles` does before scoring) have
word-set Jaccard similarity 3/4 = 0.75, and with confidence 0.8 the decision
on that candidate is `update`.  The similarity scorer agrees everywhere with
the spec's Jaccard-index formula (`jaccardSpecSim`). -/
theorem C6_decide_update_or_create (candidates : List KBCandidate) (conf : ℚ) :
    (∀ t1 t2, calcTextSimilarity t1 t2 = jaccardSpecSim t1 t2) ∧
    (conf < mkRat 75 100 → decideUpdateOrCreate candidates conf = "skip") ∧
    (¬ conf < mkRat 75 100 → candidates = [] → decideUpdateOrCreate candidates conf = "create") ∧
    (∀ best rest, ¬ conf < mkRat 75 100 → candidates = best :: rest →
      ((mkRat 85 100 < best.similarity ∨
          (mkRat 6 10 ≤ best.similarity ∧ best.similarity ≤ mkRat 85 100)) →
        decideUpdateOrCreate candidates conf = "update") ∧
      (best.similarity < mkRat 6 10 → decideUpdateOrCreate candidates conf = "create")) ∧
    calcTextSimilarity (toLowerStr "VPN connection timeout")
      (toLowerStr "VPN connection timeout issue") = mkRat 3 4 ∧
    decideUpdateOrCreate [⟨"VPN connection timeout issue", mkRat 3 4⟩] (mkRat 8 10) = "update" := by
  refine ⟨calcTextSimilarity_eq_specSim, ?_, ?_, ?_, by decide, by decide⟩
  · intro h
    simp only [decideUpdateOrCreate, if_pos h]
  · intro h he
    subst he
    simp only [decideUpdateOrCreate, if_neg h]
  · intro best rest h hc
    subst hc
    constructor
    · intro hor
      simp only [decideUpdateOrCreate, if_neg h]
      by_cases hgt : best.similarity > mkRat 85 100
      · rw [if_pos hgt]
      · rw [if_neg hgt, if_pos]
        rcases hor with hl | ⟨h1, _⟩
        · exact absurd hl hgt
        · exact h1
    · intro hlt
      simp only [decideUpdateOrCreate, if_neg h]
      rw [if_neg (not_lt.mpr (le_of_lt (lt_trans hlt (by decide)))),
        if_neg (not_le.mpr hlt)]

/-- Witness for C6 at concrete inputs: confidence 0.5 skips; confidence 0.8
with no candidates creates; similarity 3/4 updates; similarity 0.5 creates. -/
theorem C6_decide_update_or_create_witness :
    decideUpdateOrCreate [⟨"t", mkRat 1 2⟩] (mkRat 1 2) = "skip" ∧
    decideUpdateOrCreate [] (mkRat 8 10) = "create" ∧
    decideUpdateOrCreate [⟨"t", mkRat 3 4⟩] (mkRat 8 10) = "update" ∧
    decideUpdateOrCreate [⟨"t", mkRat 1 2⟩] (mkRat 8 10) = "create" :=
  ⟨(C6_decide_update_or_create _ _).2.1 (by decide),
   (C6_decide_update_or_create [] _).2.2.1 (by decide) rfl,
   ((C6_decide_update_or_create _ _).2.2.2.1 ⟨"t", mkRat 3 4⟩ [] (by decide) rfl).1
     (Or.inr ⟨by decide, by decide⟩),
   ((C6_decide_update_or_create _ _).2.2.2.1 ⟨"t", mkRat 1 2⟩ [] (by decide) rfl).2 (by decide)⟩

/-! ## Tenant/Identity Resolver (`app/services/tenant_service.py`) -/

/-- Embeds the domain extraction in `resolve_tenant_by_domain`:
`email.split("@")[-1].lower() if "@" in email else None`, followed by the
source's `if not domain: return None` falsiness guard on the empty
string. -/
def emailDomain (email : String) : Option String :=
  if email.data.contains '@' then
    let domain := toLowerStr ⟨(splitOnCharAux '@' email.data []).getLastD []⟩
    if domain = "" then none else some domain
  else none

/-- Embeds `resolve_tenant_by_domain`: first tenant whose stored
`primary_domain` equals the lowercased e-mail domain exactly. -/
def resolveTenantByDomain (tenants : List Tenant) (email : String) : Option Tenant :=
  match emailDomain email with
  | none => none
  | some d => tenants.find? (fun t => t.primaryDomain == some d)

/-- Embeds `get_or_create_prospect_tenant`: looks up the tenant named
"Prospect" and creates it (tier0, no domain) when absent.  `freshId`
stands for the generated row id. -/
def getOrCreateProspectTenant (tenants : List Tenant) (freshId : Nat) :
    Tenant × List Tenant :=
  match tenants.find? (fun t => t.name == "Prospect") with
  | some t => (t, tenants)
  | none =>
    let t : Tenant := ⟨freshId, "Prospect", none, PlanTier.tier0⟩
    (t, tenants ++ [t])

/-- Embeds the tenant-resolution fallback in `intake_request`
(`support.py` lines 66-70): resolve by domain, else route to the
Prospect tenant. -/
def resolveTenantOrProspect (tenants : List Tenant) (freshId : Nat)
    (email : String) : Tenant × List Tenant :=
  match resolveTenantByDomain tenants email with
  | some t => (t, tenants)
  | none => getOrCreateProspectTenant tenants freshId

/-- A tenant whose domain was registered with an uppercase letter, used to
refute claim C8 as stated. -/
def mixedCaseTenant : Tenant := ⟨1, "Acme", some "Knowndomain.com", PlanTier.tier2⟩

/-- C8 counterexample: the tenant has registered the domain
`Knowndomain.com`, yet an e-mail at that domain (written in lowercase)
does not resolve to it — it falls through to the Prospect tenant.
Matching is therefore not case-insensitive on the stored
`primary_domain`, refuting the claim that an e-mail at a registered
domain "in any letter case" resolves to that tenant. -/
theorem C8_tenant_resolution_counterexample :
    resolveTenantByDomain [mixedCaseTenant] "user@knowndomain.com" = none ∧
    (resolveTenantOrProspect [mixedCaseTenant] 2 "user@knowndomain.com").1.name = "Prospect" ∧
    (resolveTenantOrProspect [mixedCaseTenant] 2 "user@knowndomain.com").1.planTier =
      PlanTier.tier0 := by
  decide

/-- C8 amended: tenant resolution lowercases the e-mail's domain and
compares it by exact, case-sensitive string equality against the stored
`primary_domain`.  (1) any resolved tenant has a stored `primary_domain`
equal to the lowercased e-mail domain; (2) if some tenant stores exactly
the lowercased e-mail domain, resolution succeeds with such a tenant;
(3) resolution depends on the sender address only through its lowercased
domain (so case differences in the address never matter); (4) when no
tenant matches, the request is routed to the singleton "Prospect" tenant,
created with plan tier0 and no primary domain when absent. -/
theorem C8_tenant_resolution_amended (tenants : List Tenant) (email : String) :
    (∀ t, resolveTenantByDomain tenants email = some t →
      ∃ d, emailDomain email = some d ∧ t ∈ tenants ∧ t.primaryDomain = some d) ∧
    (∀ d t, emailDomain email = some d → t ∈ tenants → t.primaryDomain = some d →
      ∃ t2, resolveTenantByDomain tenants email = some t2 ∧ t2.primaryDomain = some d) ∧
    (∀ e2, emailDomain e2 = emailDomain email →
      resolveTenantByDomain tenants e2 = resolveTenantByDomain tenants email) ∧
    (resolveTenantByDomain tenants email = none →
      (∀ t, t ∈ tenants → t.name ≠ "Prospect") →
      ∀ freshId, (resolveTenantOrProspect tenants freshId email).1.name = "Prospect" ∧
        (resolveTenantOrProspect tenants freshId email).1.planTier = PlanTier.tier0 ∧
        (resolveTenantOrProspect tenants freshId email).1.primaryDomain = none) := by
  refine ⟨?_, ?_, ?_, ?_⟩
  · intro t ht
    unfold resolveTenantByDomain at ht
    cases hd : emailDomain email with
    | none => rw [hd] at ht; exact absurd ht (by simp)
    | some d =>
      rw [hd] at ht
      refine ⟨d, rfl, List.mem_of_find?_eq_some ht, ?_⟩
      have := List.find?_some ht
      simpa using this
  · intro d t hd hmem hpd
    have hgoal : resolveTenantByDomain tenants email =
        tenants.find? (fun t => t.primaryDomain == some d) := by
      unfold resolveTenantByDomain
      rw [hd]
    have hex : ∃ x ∈ tenants, (x.primaryDomain == some d) = true := by
      exact ⟨t, hmem, by simp [hpd]⟩
    rw [← List.find?_isSome] at hex
    cases hf : tenants.find? (fun t => t.primaryDomain == some d) with
    | none => rw [hf] at hex; simp at hex
    | some t2 =>
      refine ⟨t2, by rw [hgoal, hf], ?_⟩
      have := List.find?_some hf
      simpa using this
  · intro e2 he
    unfold resolveTenantByDomain
    rw [he]
  · intro hnone hno freshId
    unfold resolveTenantOrProspect
    rw [hnone]
    unfold getOrCreateProspectTenant
    have hf : tenants.find? (fun t => t.name == "Prospect") = none := by
      rw [List.find?_eq_none]
      intro t ht
      simp [hno t ht]
    rw [hf]
    exact ⟨rfl, rfl, rfl⟩

/-- Witness for C8 amended at concrete inputs: with a tenant storing
`knowndomain.com`, the mixed-case address `User@KnownDomain.COM` resolves
to a tenant storing that domain; with no matching tenant, `user@unknown.com`
routes to the freshly created Prospect tenant (tier0, no domain). -/
theorem C8_tenant_resolution_amended_witness :
    (∃ t2, resolveTenantByDomain [⟨1, "Acme", some "knowndomain.com", PlanTier.tier2⟩]
        "User@KnownDomain.COM" = some t2 ∧ t2.primaryDomain = some "knowndomain.com") ∧
    ((resolveTenantOrProspect [⟨1, "Acme", some "knowndomain.com", PlanTier.tier2⟩] 2
        "user@unknown.com").1.name = "Prospect" ∧
      (resolveTenantOrProspect [⟨1, "Acme", some "knowndomain.com", PlanTier.tier2⟩] 2
        "user@unknown.com").1.planTier = PlanTier.tier0 ∧
      (resolveTenantOrProspect [⟨1, "Acme", some "knowndomain.com", PlanTier.tier2⟩] 2
        "user@unknown.com").1.primaryDomain = none) :=
  ⟨(C8_tenant_resolution_amended [⟨1, "Acme", some "knowndomain.com", PlanTier.tier2⟩]
      "User@KnownDomain.COM").2.1 "knowndomain.com"
      ⟨1, "Acme", some "knowndomain.com", PlanTier.tier2⟩ (by decide) (by decide) rfl,
   (C8_tenant_resolution_amended [⟨1, "Acme", some "knowndomain.com", PlanTier.tier2⟩]
      "user@unknown.com").2.2.2 (by decide) (by decide) 2⟩

/-! ## SLA Policy Engine (`app/services/sla_service.py`) -/

/-- Embeds `app.models.sla.SLAEventType`. -/
inductive SLAEventType
  | started
  | firstResponse
  | breachedFirstResponse
  | breachedResolution
  | paused
  | resumed
deriving DecidableEq, Repr

/-- Embeds `app.models.sla.SLAEvent`.  The JSONB payload is flattened to
the keys the service writes: budget minutes for STARTED events and the
event timestamp (`started_at` / `breached_at`). -/
structure SLAEvent where
  caseId : Nat
  eventType : SLAEventType
  payloadFirstResponseMinutes : Option Int := none
  payloadResolutionMinutes : Option Int := none
  payloadAt : Int
deriving DecidableEq, Repr

/-- Embeds `app.models.sla.SLAPolicy`. -/
structure SLAPolicy where
  id : Nat
  tenantId : Nat
  tier : PlanTier
  firstResponseMinutes : Int
  resolutionMinutes : Int
deriving DecidableEq, Repr

/-- Embeds the columns of `app.models.case.Case` the SLA service reads. -/
structure SlaCase where
  id : Nat
  tenantId : Nat
  createdAt : Int
deriving DecidableEq, Repr

/-- Database state seen by the SLA service: lists model the tables. -/
structure SlaDb where
  tenants : List Tenant
  policies : List SLAPolicy
  cases : List SlaCase
  events : List SLAEvent
deriving DecidableEq, Repr

/-- Embeds `get_sla_policy`. -/
def getSlaPolicy (db : SlaDb) (tenantId : Nat) (tier : PlanTier) : Option SLAPolicy :=
  db.policies.find? (fun p => p.tenantId == tenantId && p.tier == tier)

/-- Embeds `get_default_sla_policy` (first-response, resolution minutes). -/
def getDefaultSlaPolicy : PlanTier → Int × Int
  | PlanTier.tier0 => (1440, 4320)
  | PlanTier.tier1 => (240, 1440)
  | PlanTier.tier2 => (60, 480)

/-- The `case.tenant.plan_tier` relationship access; the foreign key keeps
a tenant row present for every case, so the `tier0` fallback is never hit
on well-formed states. -/
def caseTenantTier (db : SlaDb) (c : SlaCase) : PlanTier :=
  match db.tenants.find? (fun t => t.id == c.tenantId) with
  | some t => t.planTier
  | none => PlanTier.tier0

/-- The policy-or-defaults block duplicated in `start_sla_tracking` and
`check_sla_breaches` (lines 38-45 and 75-82). -/
def resolveBudgets (db : SlaDb) (c : SlaCase) : Int × Int :=
  match getSlaPolicy db c.tenantId (caseTenantTier db c) with
  | none => getDefaultSlaPolicy (caseTenantTier db c)
  | some p => (p.firstResponseMinutes, p.resolutionMinutes)

/-- Embeds `start_sla_tracking`: appends a STARTED event whose payload
captures the budgets resolved at call time. -/
def startSlaTracking (db : SlaDb) (caseId : Nat) (now : Int) : SlaDb :=
  match db.cases.find? (fun c => c.id == caseId) with
  | none => db
  | some c =>
    let b := resolveBudgets db c
    { db with
      events := db.events ++
        [{ caseId := caseId, eventType := SLAEventType.started,
           payloadFirstResponseMinutes := some b.1,
           payloadResolutionMinutes := some b.2, payloadAt := now }] }

/-- The set of already-logged breach kinds queried by `check_sla_breaches`
before inserting (lines 91-96). -/
def breachTypesLogged (events : List SLAEvent) (caseId : Nat) : List SLAEventType :=
  (events.filter (fun e => e.caseId == caseId &&
      (e.eventType == SLAEventType.breachedFirstResponse ||
        e.eventType == SLAEventType.breachedResolution))).map (fun e => e.eventType)

/-- Return value of `check_sla_breaches`. -/
structure BreachFlags where
  breachedFirstResponse : Bool
  breachedResolution : Bool
deriving DecidableEq, Repr

/-- One conditional breach insert of `check_sla_breaches` (lines 99-113):
a new event of kind `k` is appended exactly when that kind breached and
was not already logged. -/
def breachInsert (alreadyLogged : List SLAEventType) (flag : Bool) (k : SLAEventType)
    (caseId : Nat) (now : Int) : List SLAEvent :=
  if flag = true ∧ k ∉ alreadyLogged then
    [{ caseId := caseId, eventType := k, payloadAt := now }]
  else []

/-- Embeds `check_sla_breaches`: resolves the budgets from the current
policy table (not from the STARTED event), computes the breach flags from
the case age, and inserts at most one new event per not-yet-logged
breached kind. -/
def checkSlaBreaches (db : SlaDb) (caseId : Nat) (now : Int) : BreachFlags × SlaDb :=
  match db.cases.find? (fun c => c.id == caseId) with
  | none => (⟨false, false⟩, db)
  | some c =>
    let b := resolveBudgets db c
    let caseAge := now - c.createdAt
    let bfr : Bool := decide (caseAge > b.1)
    let br : Bool := decide (caseAge > b.2)
    let logged := breachTypesLogged db.events caseId
    let ev1 := breachInsert logged bfr SLAEventType.breachedFirstResponse caseId now
    let ev2 := breachInsert logged br SLAEventType.breachedResolution caseId now
    (⟨bfr, br⟩, { db with events := db.events ++ ev1 ++ ev2 })

/-- Number of recorded breach events of one kind for one case. -/
def countBreachEvents (events : List SLAEvent) (caseId : Nat) (k : SLAEventType) : Nat :=
  events.countP (fun e => e.caseId == caseId && e.eventType == k)

/-- Tier1 tenant used in the SLA counterexample. -/
def slaTenantOne : Tenant := ⟨1, "Acme", some "acme.com", PlanTier.tier1⟩

/-- A case opened at time 0 for that tenant. -/
def slaCaseTen : SlaCase := ⟨10, 1, 0⟩

/-- State at case creation: no tenant-specific policy exists. -/
def slaDbStart : SlaDb := ⟨[slaTenantOne], [], [slaCaseTen], []⟩

/-- State after `start_sla_tracking` ran at case creation. -/
def slaDbTracked : SlaDb := startSlaTracking slaDbStart 10 0

/-- A tenant policy created after the case was opened, with a larger
first-response budget (1000 minutes instead of the tier1 default 240). -/
def slaLatePolicy : SLAPolicy := ⟨50, 1, PlanTier.tier1, 1000, 4320⟩

/-- The tracked state with the late policy row added. -/
def slaDbPolicyAfter : SlaDb := { slaDbTracked with policies := [slaLatePolicy] }

/-- C2 counterexample: the STARTED event captured the tier1 default budget
of 240 minutes, and 300 minutes after creation the case is reported
breached; but after a tenant policy with a 1000-minute budget is created
(after the case was opened), the same check at the same instant reports no
breach.  Creating a policy after a case is opened therefore does change
whether `check_sla_breaches` reports the case as breached, refuting the
claim. -/
theorem C2_sla_frozen_budget_counterexample :
    slaDbTracked.events = [⟨10, SLAEventType.started, some 240, some 1440, 0⟩] ∧
    (checkSlaBreaches slaDbTracked 10 300).1.breachedFirstResponse = true ∧
    (checkSlaBreaches slaDbPolicyAfter 10 300).1.breachedFirstResponse = false := by
  decide

/-- C2 amended: `check_sla_breaches` resolves the time budgets from the
tenant's current policy table (or the tier defaults) at the time of the
check; the budgets captured in the STARTED event are never read, so the
reported flags are independent of the recorded events, and creating or
changing a tenant SLA policy after a case is opened can change whether the
case is reported as breached.  Conjunct (1): the flags do not depend on
the events table (in particular not on the STARTED budgets); conjunct (2):
the flags equal the age-versus-currently-resolved-budget comparisons. -/
theorem C2_sla_current_policy_amended (db : SlaDb) (events2 : List SLAEvent)
    (caseId : Nat) (now : Int) :
    ((checkSlaBreaches { db with events := events2 } caseId now).1 =
      (checkSlaBreaches db caseId now).1) ∧
    (∀ c, db.cases.find? (fun x => x.id == caseId) = some c →
      (checkSlaBreaches db caseId now).1 =
        ⟨decide (now - c.createdAt > (resolveBudgets db c).1),
         decide (now - c.createdAt > (resolveBudgets db c).2)⟩) := by
  constructor
  · unfold checkSlaBreaches
    cases hf : db.cases.find? (fun c => c.id == caseId) with
    | none => rfl
    | some c => rfl
  · intro c hf
    unfold checkSlaBreaches
    rw [hf]

/-- Witness for C2 amended at the counterexample states: replacing the
events table with the empty list leaves the reported flags unchanged, and
the flags at time 300 equal the current-budget comparison for the case. -/
theorem C2_sla_current_policy_amended_witness :
    ((checkSlaBreaches { slaDbPolicyAfter with events := [] } 10 300).1 =
      (checkSlaBreaches slaDbPolicyAfter 10 300).1) ∧
    (checkSlaBreaches slaDbPolicyAfter 10 300).1 =
      ⟨decide ((300 : Int) - slaCaseTen.createdAt > (resolveBudgets slaDbPolicyAfter slaCaseTen).1),
       decide ((300 : Int) - slaCaseTen.createdAt > (resolveBudgets slaDbPolicyAfter slaCaseTen).2)⟩ :=
  ⟨(C2_sla_current_policy_amended slaDbPolicyAfter [] 10 300).1,
   (C2_sla_current_policy_amended slaDbPolicyAfter [] 10 300).2 slaCaseTen (by decide)⟩

theorem mem_breachTypesLogged_iff (events : List SLAEvent) (caseId : Nat) (k : SLAEventType)
    (hk : k = SLAEventType.breachedFirstResponse ∨ k = SLAEventType.breachedResolution) :
    k ∈ breachTypesLogged events caseId ↔ countBreachEvents events caseId k ≠ 0 := by
  unfold breachTypesLogged countBreachEvents
  rw [Nat.ne_zero_iff_zero_lt, List.countP_pos_iff]
  simp only [List.mem_map, List.mem_filter, Bool.and_eq_true, Bool.or_eq_true, beq_iff_eq]
  constructor
  · rintro ⟨e, ⟨he, hcid, _⟩, hke⟩
    exact ⟨e, he, hcid, hke⟩
  · rintro ⟨e, he, hcid, hke⟩
    refine ⟨e, ⟨he, hcid, ?_⟩, hke⟩
    rcases hk with h | h <;> rw [hke, h] <;> simp

theorem countBreachEvents_append (e1 e2 : List SLAEvent) (caseId : Nat) (k : SLAEventType) :
    countBreachEvents (e1 ++ e2) caseId k =
      countBreachEvents e1 caseId k + countBreachEvents e2 caseId k :=
  List.countP_append _ _ _

theorem countBreach_singleton (i : Nat) (k0 : SLAEventType) (t : Int) (cid : Nat)
    (k : SLAEventType) :
    countBreachEvents [{ caseId := i, eventType := k0, payloadAt := t }] cid k =
      if i = cid ∧ k0 = k then 1 else 0 := by
  unfold countBreachEvents
  by_cases h1 : i = cid <;> by_cases h2 : k0 = k <;>
    simp [List.countP_cons, h1, h2]

theorem countBreach_breachInsert_le (L : List SLAEventType) (f : Bool) (k0 : SLAEventType)
    (i : Nat) (t : Int) (cid : Nat) (k : SLAEventType) :
    countBreachEvents (breachInsert L f k0 i t) cid k ≤ 1 := by
  unfold breachInsert
  split
  · rw [countBreach_singleton]
    split <;> simp
  · simp [countBreachEvents]

theorem countBreach_breachInsert_ne_kind (L : List SLAEventType) (f : Bool)
    (k0 : SLAEventType) (i : Nat) (t : Int) (cid : Nat) (k : SLAEventType) (hne : k ≠ k0) :
    countBreachEvents (breachInsert L f k0 i t) cid k = 0 := by
  unfold breachInsert
  split
  · rw [countBreach_singleton, if_neg (fun h => hne h.2.symm)]
  · simp [countBreachEvents]

theorem countBreach_breachInsert_ne_case (L : List SLAEventType) (f : Bool)
    (k0 : SLAEventType) (i : Nat) (t : Int) (cid : Nat) (k : SLAEventType) (hne : cid ≠ i) :
    countBreachEvents (breachInsert L f k0 i t) cid k = 0 := by
  unfold breachInsert
  split
  · rw [countBreach_singleton, if_neg (fun h => hne h.1.symm)]
  · simp [countBreachEvents]

theorem countBreach_breachInsert_logged (L : List SLAEventType) (f : Bool)
    (k0 : SLAEventType) (i : Nat) (t : Int) (cid : Nat) (k : SLAEventType) (hmem : k0 ∈ L) :
    countBreachEvents (breachInsert L f k0 i t) cid k = 0 := by
  unfold breachInsert
  rw [if_neg (fun h => h.2 hmem)]
  simp [countBreachEvents]

theorem checkSlaBreaches_count_le (db : SlaDb) (i : Nat) (t : Int) (cid : Nat)
    (k : SLAEventType)
    (hk : k = SLAEventType.breachedFirstResponse ∨ k = SLAEventType.breachedResolution)
    (h : countBreachEvents db.events cid k ≤ 1) :
    countBreachEvents (checkSlaBreaches db i t).2.events cid k ≤ 1 := by
  unfold checkSlaBreaches
  cases hf : db.cases.find? (fun c => c.id == i) with
  | none => exact h
  | some c =>
    simp only
    rw [countBreachEvents_append, countBreachEvents_append]
    set L := breachTypesLogged db.events i with hL
    set f1 := decide (t - c.createdAt > (resolveBudgets db c).1) with hf1
    set f2 := decide (t - c.createdAt > (resolveBudgets db c).2) with hf2
    by_cases hcid : cid = i
    · by_cases h0 : countBreachEvents db.events cid k = 0
      · -- nothing of kind k logged yet: only the matching insert can add one row
        rw [h0]
        rcases hk with hk | hk <;> subst hk
        · rw [countBreach_breachInsert_ne_kind L f2 SLAEventType.breachedResolution i t cid
            SLAEventType.breachedFirstResponse (by decide)]
          have := countBreach_breachInsert_le L f1 SLAEventType.breachedFirstResponse i t cid
            SLAEventType.breachedFirstResponse
          omega
        · rw [countBreach_breachInsert_ne_kind L f1 SLAEventType.breachedFirstResponse i t cid
            SLAEventType.breachedResolution (by decide)]
          have := countBreach_breachInsert_le L f2 SLAEventType.breachedResolution i t cid
            SLAEventType.breachedResolution
          omega
      · -- kind k already logged for this case: both inserts leave its count unchanged
        have hmem : k ∈ L := by
          rw [hL, ← hcid]
          exact (mem_breachTypesLogged_iff db.events cid k hk).mpr h0
        rcases hk with hk | hk <;> subst hk
        · rw [countBreach_breachInsert_logged L f1 SLAEventType.breachedFirstResponse i t cid
            SLAEventType.breachedFirstResponse hmem,
            countBreach_breachInsert_ne_kind L f2 SLAEventType.breachedResolution i t cid
            SLAEventType.breachedFirstResponse (by decide)]
          omega
        · rw [countBreach_breachInsert_logged L f2 SLAEventType.breachedResolution i t cid
            SLAEventType.breachedResolution hmem,
            countBreach_breachInsert_ne_kind L f1 SLAEventType.breachedFirstResponse i t cid
            SLAEventType.breachedResolution (by decide)]
          omega
    · -- a check for a different case never touches this case's count
      rw [countBreach_breachInsert_ne_case L f1 SLAEventType.breachedFirstResponse i t cid
        k hcid,
        countBreach_breachInsert_ne_case L f2 SLAEventType.breachedResolution i t cid
        k hcid]
      omega

/-- C7: at most one breach event of each kind is ever recorded per case.
Starting from any state in which a case has at most one recorded breach
event of a kind (in particular a fresh case with none), any sequence of
`check_sla_breaches` calls — for any case ids and at any times — leaves at
most one recorded breach event of that kind for that case; in particular a
second call on an already-breached case inserts no additional event of
that kind. -/
theorem C7_breach_logged_at_most_once (db : SlaDb) (cid : Nat) (k : SLAEventType)
    (hk : k = SLAEventType.breachedFirstResponse ∨ k = SLAEventType.breachedResolution)
    (h : countBreachEvents db.events cid k ≤ 1) (calls : List (Nat × Int)) :
    countBreachEvents
      ((calls.foldl (fun d args => (checkSlaBreaches d args.1 args.2).2) db)).events cid k ≤ 1 := by
  induction calls generalizing db with
  | nil => exact h
  | cons hd tl ih =>
    exact ih _ (checkSlaBreaches_count_le db hd.1 hd.2 cid k hk h)

/-- Witness for C7: two successive checks at times 300 and 400 on the
tier1 case opened at time 0 (budget 240) record at most one
`breached_first_response` event; concretely the count is exactly 1. -/
theorem C7_breach_logged_at_most_once_witness :
    countBreachEvents
      (([((10 : Nat), (300 : Int)), ((10 : Nat), (400 : Int))].foldl
        (fun d args => (checkSlaBreaches d args.1 args.2).2) slaDbTracked)).events 10
      SLAEventType.breachedFirstResponse ≤ 1 :=
  C7_breach_logged_at_most_once slaDbTracked 10 SLAEventType.breachedFirstResponse
    (Or.inl rfl) (by decide) [((10 : Nat), (300 : Int)), ((10 : Nat), (400 : Int))]

/-! ## Support AI Resolution Engine (`app/services/support_ai_engine.py`)
and the intake decision logic (`app/api/v1/support.py`). -/

/-- Embeds the columns of `app.models.support_ai_log.SupportAILog` read by
the verified services (the intake attempt counter and the training-dataset
builder). -/
structure SupportAILog where
  tenantId : Nat
  message : String
  subject : Option String
  confidence : ℚ
  resolved : Bool
  usedInTraining : Bool
  helpful : Option Bool
  kbDocumentId : Option String
  createdAt : Int
deriving DecidableEq, Repr

/-- Embeds `SupportAIEngine.should_escalate`: user rejection, confidence
below 0.45, or more than two attempts force escalation. -/
def shouldEscalate (confidence : ℚ) (attempts : Nat) (userRejected : Bool) : Bool :=
  if userRejected then true
  else if confidence < mkRat 45 100 then true
  else if attempts > 2 then true
  else false

/-- Embeds the previous-attempts query of `intake_request` (support.py
lines 107-113): same-tenant logs of the last 24 hours whose stored message
contains the first 50 characters of the incoming message
(`LIKE '%message[:50]%'`). -/
def countPreviousAttempts (logs : List SupportAILog) (tenantId : Nat) (message : String)
    (now : Int) : Nat :=
  (logs.filter (fun l => l.tenantId == tenantId &&
      containsSubstr l.message (strTake 50 message) &&
      decide (l.createdAt ≥ now - 24 * 60))).length

/-- Embeds `app.models.case.CasePriority`. -/
inductive CasePriority
  | low
  | normal
  | high
  | critical
deriving DecidableEq, Repr

/-- Embeds `app.models.case.CaseCategory`. -/
inductive CaseCategory
  | support
  | onboarding
  | billing
  | compliance
  | outage
deriving DecidableEq, Repr

/-- Embeds the case statuses `intake_request` assigns. -/
inductive CaseStatus
  | statusNew
  | escalated
deriving DecidableEq, Repr

/-- The `priority_map` / `urgency_map` string-keyed dictionary of
`intake_request` (lines 339-344 and 351-356); `none` models a missed
dictionary lookup. -/
def priorityMap (s : String) : Option CasePriority :=
  if s = "low" then some CasePriority.low
  else if s = "normal" then some CasePriority.normal
  else if s = "high" then some CasePriority.high
  else if s = "critical" then some CasePriority.critical
  else none

/-- The `category_map` dictionary of `intake_request` (lines 365-371). -/
def categoryMap (s : String) : Option CaseCategory :=
  if s = "support" then some CaseCategory.support
  else if s = "onboarding" then some CaseCategory.onboarding
  else if s = "billing" then some CaseCategory.billing
  else if s = "compliance" then some CaseCategory.compliance
  else if s = "outage" then some CaseCategory.outage
  else none

/-- Embeds `priority_map.get(request.priority_requested.lower() if
request.priority_requested else "normal", CasePriority.NORMAL)`. -/
def mapRequestedPriority (priorityRequested : Option String) : CasePriority :=
  let key := match priorityRequested with
    | some p => toLowerStr p
    | none => "normal"
  (priorityMap key).getD CasePriority.normal

/-- Embeds `category_map.get(request.category.lower() if request.category
else "support", CaseCategory.SUPPORT)`. -/
def mapRequestedCategory (category : Option String) : CaseCategory :=
  let key := match category with
    | some c => toLowerStr c
    | none => "support"
  (categoryMap key).getD CaseCategory.support

/-- The `priority_values` ranking dictionary (line 360). -/
def priorityValue : CasePriority → Nat
  | CasePriority.low => 0
  | CasePriority.normal => 1
  | CasePriority.high => 2
  | CasePriority.critical => 3

/-- Embeds the priority computation of the escalation path (lines
339-362): requested priority, overridden by the AI urgency when the
urgency ranks strictly higher. -/
def escalationPriority (priorityRequested : Option String) (urgency : String) : CasePriority :=
  let priority := mapRequestedPriority priorityRequested
  let aiPriority := (priorityMap urgency).getD CasePriority.normal
  if priorityValue aiPriority > priorityValue priority then aiPriority else priority

/-- Embeds the tier-route computation (lines 377-383): 1 by default, 2 for
tier2 tenants, 2 when the classified urgency is critical or the message is
compliance-flagged. -/
def escalationTierRoute (tier : PlanTier) (urgency : String) (complianceFlag : Bool) : Nat :=
  let t1 := if tier = PlanTier.tier2 then 2 else 1
  if urgency = "critical" ∨ complianceFlag then 2 else t1

/-- The case row assembled by the escalation path of `intake_request`. -/
structure CreatedCase where
  status : CaseStatus
  priority : CasePriority
  category : CaseCategory
  aiConfidence : ℚ
  tierRoute : Nat
deriving DecidableEq, Repr

/-- Inputs of the decision section of `intake_request` (after
classification, retrieval, generation and confidence boosting ran). -/
structure IntakeParams where
  finalConfidence : ℚ
  attemptNumber : Nat
  tier : PlanTier
  urgency : String
  complianceFlag : Bool
  priorityRequested : Option String
  category : Option String
  modelClarifyingQuestion : Option String
  followUpNeeded : Bool
deriving DecidableEq, Repr

/-- Observable outcome of the decision section of `intake_request`: the
flags written to the `SupportAILog` row, the clarifying question returned
to the user, the created case (if any), whether SLA tracking was started,
and the `status` field of the JSON response (`none` when the function
falls off the end and returns no response). -/
structure IntakeResult where
  logResolved : Bool
  logFollowUpFlag : Bool
  logEscalationTriggered : Bool
  clarifyingQuestion : Option String
  createdCase : Option CreatedCase
  slaStarted : Bool
  responseStatus : Option String
deriving DecidableEq, Repr

/-- Embeds the decision logic of `intake_request` (support.py lines
134-458), including the source's indentation of the case-creation block
(lines 385-458) inside the `if urgency == "critical" or compliance_flag`
statement: on the escalation path a case is created (and SLA tracking
started) only when the urgency is critical or the message is
compliance-flagged; otherwise the endpoint sets `escalation_triggered`
and falls off the end without creating a case or returning a response. -/
def intakeDecision (p : IntakeParams) : IntakeResult :=
  if p.finalConfidence ≥ mkRat 78 100 ∧
      shouldEscalate p.finalConfidence p.attemptNumber false = false then
    { logResolved := true, logFollowUpFlag := p.followUpNeeded,
      logEscalationTriggered := false, clarifyingQuestion := none,
      createdCase := none, slaStarted := false,
      responseStatus := some "ai_response" }
  else if mkRat 45 100 ≤ p.finalConfidence ∧ p.finalConfidence < mkRat 78 100 then
    { logResolved := false, logFollowUpFlag := true,
      logEscalationTriggered := false,
      clarifyingQuestion :=
        some (p.modelClarifyingQuestion.getD
          "Can you provide more details about this issue?"),
      createdCase := none, slaStarted := false,
      responseStatus := some "ai_response" }
  else
    let priority := escalationPriority p.priorityRequested p.urgency
    let category := mapRequestedCategory p.category
    let tierRoute := escalationTierRoute p.tier p.urgency p.complianceFlag
    if p.urgency = "critical" ∨ p.complianceFlag then
      { logResolved := false, logFollowUpFlag := p.followUpNeeded,
        logEscalationTriggered := true, clarifyingQuestion := none,
        createdCase := some
          { status := if p.finalConfidence ≥ mkRat 45 100 then CaseStatus.statusNew
              else CaseStatus.escalated,
            priority := priority, category := category,
            aiConfidence := p.finalConfidence, tierRoute := tierRoute },
        slaStarted := true, responseStatus := some "case_created" }
    else
      { logResolved := false, logFollowUpFlag := p.followUpNeeded,
        logEscalationTriggered := true, clarifyingQuestion := none,
        createdCase := none, slaStarted := false, responseStatus := none }

theorem shouldEscalate_eq (c : ℚ) (a : Nat) (r : Bool) :
    shouldEscalate c a r = (r || decide (c < mkRat 45 100) || decide (a > 2)) := by
  unfold shouldEscalate
  cases r
  · by_cases h1 : c < mkRat 45 100 <;> by_cases h2 : a > 2 <;> simp [h1, h2]
  · simp

/-- Prior attempt rows used by the C4 counterexample: two same-tenant logs
with the same message inside the trailing 24-hour window. -/
def c4PriorLogA : SupportAILog :=
  ⟨1, "Cannot connect to VPN from home office", none, mkRat 1 2, false, false, none, none, 100⟩

/-- Second prior attempt, 50 minutes later. -/
def c4PriorLogB : SupportAILog :=
  ⟨1, "Cannot connect to VPN from home office", none, mkRat 55 100, false, false, none, none, 150⟩

/-- C4 counterexample: with exactly two prior attempts on the same message
(within 24 hours, same tenant) the third attempt has `attempt_number = 3`,
and `should_escalate(0.8, 3)` already forces escalation even though the
confidence 0.8 is above both thresholds and the user did not reject —
refuting the claim that an attempt with at most 2 prior attempts is never
escalated by the attempts rule (the code escalates as soon as
`attempt_number = prior + 1 > 2`, i.e. from the second prior attempt on). -/
theorem C4_attempts_rule_counterexample :
    countPreviousAttempts [c4PriorLogA, c4PriorLogB] 1
      "Cannot connect to VPN from home office" 200 = 2 ∧
    shouldEscalate (mkRat 8 10)
      (countPreviousAttempts [c4PriorLogA, c4PriorLogB] 1
        "Cannot connect to VPN from home office" 200 + 1) false = true ∧
    (intakeDecision
      { finalConfidence := mkRat 8 10,
        attemptNumber := countPreviousAttempts [c4PriorLogA, c4PriorLogB] 1
          "Cannot connect to VPN from home office" 200 + 1,
        tier := PlanTier.tier1, urgency := "normal", complianceFlag := false,
        priorityRequested := some "normal", category := none,
        modelClarifyingQuestion := none, followUpNeeded := false }).logResolved = false := by
  decide

/-- C4 amended: an intake attempt is forced to escalate, overriding
auto-resolve, exactly when the user rejected, or confidence < 0.45, or
there are at least 2 prior attempts (attempt_number = prior + 1 > 2, i.e.
the third attempt onward) on a similar message — same-tenant logs of the
trailing 24 hours whose message contains the new message's first 50
characters.  The fourth attempt (attempt_number = 4) is escalated even
when boosted confidence ≥ 0.78, and an attempt with at most 1 prior
attempt is not escalated by the attempts rule. -/
theorem C4_attempts_rule_amended (logs : List SupportAILog) (tid : Nat) (msg : String)
    (now : Int) (c : ℚ) (r : Bool) (p : IntakeParams) :
    (shouldEscalate c (countPreviousAttempts logs tid msg now + 1) r = true ↔
      (r = true ∨ c < mkRat 45 100 ∨ 2 ≤ countPreviousAttempts logs tid msg now)) ∧
    (shouldEscalate c 4 r = true) ∧
    (countPreviousAttempts logs tid msg now ≤ 1 → r = false → ¬ c < mkRat 45 100 →
      shouldEscalate c (countPreviousAttempts logs tid msg now + 1) r = false) ∧
    (p.finalConfidence = c → p.attemptNumber = countPreviousAttempts logs tid msg now + 1 →
      mkRat 78 100 ≤ c → shouldEscalate c p.attemptNumber false = true →
      (intakeDecision p).logResolved = false ∧
      (intakeDecision p).logEscalationTriggered = true) := by
  refine ⟨?_, ?_, ?_, ?_⟩
  · rw [shouldEscalate_eq]
    simp only [Bool.or_eq_true, decide_eq_true_eq]
    constructor
    · rintro ((hr | hc) | ha)
      · exact Or.inl hr
      · exact Or.inr (Or.inl hc)
      · exact Or.inr (Or.inr (by omega))
    · rintro (hr | hc | ha)
      · exact Or.inl (Or.inl hr)
      · exact Or.inl (Or.inr hc)
      · exact Or.inr (by omega)
  · rw [shouldEscalate_eq]
    simp
  · intro hn hr hc
    rw [shouldEscalate_eq, hr]
    simp only [Bool.false_or, Bool.or_eq_false_iff]
    exact ⟨decide_eq_false hc, decide_eq_false (by omega)⟩
  · intro hpc hpa hge hesc
    unfold intakeDecision
    rw [if_neg, if_neg]
    · constructor <;> split <;> rfl
    · rw [hpc]
      exact fun hcon => absurd hcon.2 (not_lt.mpr (le_trans (by decide) hge))
    · rw [hpc]
      intro hcon
      exact absurd (hesc.symm.trans hcon.2) (by decide)

/-- Witness for C4 amended: with one prior attempt the second attempt at
confidence 0.9 is not escalated; `attempt_number = 4` always escalates; and
with three prior attempts the fourth attempt is escalated (not auto-resolved)
despite confidence 0.9 ≥ 0.78. -/
theorem C4_attempts_rule_amended_witness :
    shouldEscalate (mkRat 9 10)
      (countPreviousAttempts [c4PriorLogA] 1
        "Cannot connect to VPN from home office" 200 + 1) false = false ∧
    shouldEscalate (mkRat 9 10) 4 false = true ∧
    (intakeDecision
      { finalConfidence := mkRat 9 10, attemptNumber := 4, tier := PlanTier.tier1,
        urgency := "normal", complianceFlag := false, priorityRequested := none,
        category := none, modelClarifyingQuestion := none,
        followUpNeeded := false }).logResolved = false := by
  have h1 := C4_attempts_rule_amended [c4PriorLogA] 1
    "Cannot connect to VPN from home office" 200 (mkRat 9 10) false
    { finalConfidence := mkRat 9 10, attemptNumber := 4, tier := PlanTier.tier1,
      urgency := "normal", complianceFlag := false, priorityRequested := none,
      category := none, modelClarifyingQuestion := none, followUpNeeded := false }
  have h2 := C4_attempts_rule_amended [c4PriorLogA, c4PriorLogA, c4PriorLogA] 1
    "Cannot connect to VPN from home office" 200 (mkRat 9 10) false
    { finalConfidence := mkRat 9 10, attemptNumber := 4, tier := PlanTier.tier1,
      urgency := "normal", complianceFlag := false, priorityRequested := none,
      category := none, modelClarifyingQuestion := none, followUpNeeded := false }
  exact ⟨h1.2.2.1 (by decide) rfl (by decide), h1.2.1,
    (h2.2.2.2 rfl (by decide) (by decide) (by decide)).1⟩

/-- C5: the intake decision boundaries on the boosted confidence.
Confidence exactly 0.78, not forced to escalate (at most 2 as attempt
number, no rejection), auto-resolves with the log marked resolved and no
case; any confidence in [0.45, 0.78) returns a follow-up response carrying
a clarifying question — the default text when the model produced none —
with the follow-up flag set and no case created; any confidence below 0.45
takes the escalation branch (`escalation_triggered` set, not resolved). -/
theorem C5_confidence_boundaries (p : IntakeParams) :
    (p.finalConfidence = mkRat 78 100 → p.attemptNumber ≤ 2 →
      (intakeDecision p).logResolved = true ∧
      (intakeDecision p).createdCase = none ∧
      (intakeDecision p).responseStatus = some "ai_response") ∧
    (mkRat 45 100 ≤ p.finalConfidence → p.finalConfidence < mkRat 78 100 →
      (intakeDecision p).logFollowUpFlag = true ∧
      (intakeDecision p).clarifyingQuestion =
        some (p.modelClarifyingQuestion.getD
          "Can you provide more details about this issue?") ∧
      (p.modelClarifyingQuestion = none →
        (intakeDecision p).clarifyingQuestion =
          some "Can you provide more details about this issue?") ∧
      (intakeDecision p).createdCase = none ∧
      (intakeDecision p).logEscalationTriggered = false ∧
      (intakeDecision p).slaStarted = false) ∧
    (p.finalConfidence < mkRat 45 100 →
      (intakeDecision p).logEscalationTriggered = true ∧
      (intakeDecision p).logResolved = false ∧
      (intakeDecision p).logFollowUpFlag = p.followUpNeeded) := by
  refine ⟨?_, ?_, ?_⟩
  · intro hc hn
    have h2 : shouldEscalate p.finalConfidence p.attemptNumber false = false := by
      rw [shouldEscalate_eq, hc]
      simp only [Bool.false_or, Bool.or_eq_false_iff]
      exact ⟨decide_eq_false (by decide), decide_eq_false (by omega)⟩
    unfold intakeDecision
    rw [if_pos ⟨le_of_eq hc.symm, h2⟩]
    exact ⟨rfl, rfl, rfl⟩
  · intro hge hlt
    unfold intakeDecision
    rw [if_neg (fun hcon => absurd hcon.1 (not_le.mpr hlt)), if_pos ⟨hge, hlt⟩]
    refine ⟨rfl, rfl, ?_, rfl, rfl, rfl⟩
    intro hq
    rw [hq]
    rfl
  · intro hlt
    unfold intakeDecision
    rw [if_neg (fun hcon => absurd hcon.1 (not_le.mpr (lt_trans hlt (by decide)))),
      if_neg (fun hcon => absurd hcon.1 (not_le.mpr hlt))]
    refine ⟨?_, ?_, ?_⟩ <;> split <;> rfl

/-- Intake parameters used by the C5 boundary witness: first attempt,
tier0 tenant, normal urgency, no compliance flag, no model-produced
clarifying question. -/
def c5BoundaryParams (conf : ℚ) : IntakeParams :=
  { finalConfidence := conf, attemptNumber := 1, tier := PlanTier.tier0,
    urgency := "normal", complianceFlag := false, priorityRequested := none,
    category := none, modelClarifyingQuestion := none, followUpNeeded := false }

/-- Witness for C5 at the spec's boundary values: 0.78 auto-resolves;
0.77999 and 0.45 follow up (with the default clarifying question); 0.449999
escalates. -/
theorem C5_confidence_boundaries_witness :
    (intakeDecision (c5BoundaryParams (mkRat 78 100))).logResolved = true ∧
    (intakeDecision (c5BoundaryParams (mkRat 77999 100000))).clarifyingQuestion =
        some "Can you provide more details about this issue?" ∧
    (intakeDecision (c5BoundaryParams (mkRat 45 100))).logFollowUpFlag = true ∧
    (intakeDecision (c5BoundaryParams (mkRat 449999 1000000))).logEscalationTriggered = true := by
  refine ⟨((C5_confidence_boundaries _).1 rfl (by decide)).1, ?_, ?_, ?_⟩
  · exact ((C5_confidence_boundaries _).2.1 (by decide) (by decide)).2.2.1 rfl
  · exact ((C5_confidence_boundaries _).2.1 (by decide) (by decide)).1
  · exact ((C5_confidence_boundaries _).2.2 (by decide)).1

/-- The failing input for claim C1: boosted confidence 0.30 (below 0.45),
first attempt, tier1 tenant, classified urgency `normal`, no compliance
flag. -/
def c1FailingParams : IntakeParams :=
  { finalConfidence := mkRat 30 100, attemptNumber := 1, tier := PlanTier.tier1,
    urgency := "normal", complianceFlag := false, priorityRequested := some "normal",
    category := none, modelClarifyingQuestion := none, followUpNeeded := false }

/-- C1 (code bug): on the escalation path the case-creation block of
`intake_request` (support.py lines 385-458) is indented inside the
`if urgency == "critical" or compliance_flag` statement, so for a
confidence-0.30 request with normal urgency and no compliance flag the
endpoint marks `escalation_triggered` but creates no case, starts no SLA
tracking, and returns no response — although the endpoint's own docstring
(lines 57-58) and the decision comments (lines 135-138, 334-335) say every
such request creates a case.  This theorem evaluates the embedded endpoint
at the failing input. -/
theorem C1_escalation_no_case_code_bug :
    (intakeDecision c1FailingParams).logEscalationTriggered = true ∧
    (intakeDecision c1FailingParams).createdCase = none ∧
    (intakeDecision c1FailingParams).slaStarted = false ∧
    (intakeDecision c1FailingParams).responseStatus = none := by
  decide

/-- C10: unrecognized priority and category strings are not rejected: the
priority falls back to NORMAL (then the urgency-derived priority is merged
in) and the category falls back to SUPPORT, and the escalation path
proceeds with those defaults. -/
theorem C10_unrecognized_enums_default (p : IntakeParams) (s c : String)
    (hp : p.priorityRequested = some s) (hps : priorityMap (toLowerStr s) = none)
    (hc : p.category = some c) (hcs : categoryMap (toLowerStr c) = none)
    (hconf : p.finalConfidence < mkRat 45 100) :
    mapRequestedPriority p.priorityRequested = CasePriority.normal ∧
    mapRequestedCategory p.category = CaseCategory.support ∧
    (intakeDecision p).logEscalationTriggered = true ∧
    (∀ cc, (intakeDecision p).createdCase = some cc →
      cc.category = CaseCategory.support ∧
      cc.priority = escalationPriority p.priorityRequested p.urgency) := by
  have hmp : mapRequestedPriority p.priorityRequested = CasePriority.normal := by
    unfold mapRequestedPriority
    rw [hp]
    simp only [hps, Option.getD_none]
  have hmc : mapRequestedCategory p.category = CaseCategory.support := by
    unfold mapRequestedCategory
    rw [hc]
    simp only [hcs, Option.getD_none]
  refine ⟨hmp, hmc, ?_, ?_⟩
  · unfold intakeDecision
    rw [if_neg (fun hcon => absurd hcon.1 (not_le.mpr (lt_trans hconf (by decide)))),
      if_neg (fun hcon => absurd hcon.1 (not_le.mpr hconf))]
    split <;> rfl
  · intro cc hcc
    unfold intakeDecision at hcc
    rw [if_neg (fun hcon => absurd hcon.1 (not_le.mpr (lt_trans hconf (by decide)))),
      if_neg (fun hcon => absurd hcon.1 (not_le.mpr hconf))] at hcc
    split at hcc
    · rw [Option.some_inj] at hcc
      rw [← hcc]
      exact ⟨hmc, rfl⟩
    · exact absurd hcc (by simp)

/-- Intake parameters for the C10 witness: unrecognized priority string
"urgent" and category string "hardware", confidence 0.30, critical
urgency. -/
def c10WitnessParams : IntakeParams :=
  { finalConfidence := mkRat 30 100, attemptNumber := 1, tier := PlanTier.tier1,
    urgency := "critical", complianceFlag := false,
    priorityRequested := some "urgent", category := some "hardware",
    modelClarifyingQuestion := none, followUpNeeded := false }

/-- Witness for C10: priority string "urgent" and category string
"hardware" are recognized by neither map; with confidence 0.30 and
critical urgency the endpoint proceeds and the created case carries the
SUPPORT default category and the urgency-derived CRITICAL priority. -/
theorem C10_unrecognized_enums_default_witness :
    mapRequestedPriority (some "urgent") = CasePriority.normal ∧
    mapRequestedCategory (some "hardware") = CaseCategory.support ∧
    (intakeDecision c10WitnessParams).logEscalationTriggered = true := by
  have h := C10_unrecognized_enums_default c10WitnessParams
    "urgent" "hardware" rfl (by decide) rfl (by decide) (by decide)
  exact ⟨h.1, h.2.1, h.2.2.1⟩

/-! ## Training Dataset Builder (`app/services/model_training_dataset.py`) -/

/-- Embeds the columns of `app.models.kb_article.KBQualityScore` read by
the dataset builder. -/
structure KBQualityScoreRow where
  outlineDocumentId : String
  needsReview : Bool
  reviewed : Bool
  overallScore : Int
  createdAt : Int
deriving DecidableEq, Repr

/-- Database state seen by the dataset builder. -/
structure TrainingDb where
  logs : List SupportAILog
  qualityScores : List KBQualityScoreRow
deriving DecidableEq, Repr

/-- The SQL filter of `build_training_batch` (lines 53-67): resolved,
not yet used in training, confidence at or above the caller threshold,
and helpful, or helpful unset with confidence at least 0.85. -/
def trainingSqlFilter (minConfidence : ℚ) (l : SupportAILog) : Bool :=
  l.resolved && !l.usedInTraining && decide (l.confidence ≥ minConfidence) &&
    (l.helpful == some true || (l.helpful == none && decide (l.confidence ≥ mkRat 85 100)))

/-- The per-log quality query (lines 75-81): latest (by `created_at`)
quality score of the document that is reviewed and does not need review. -/
def latestReviewedScore (db : TrainingDb) (docId : String) : Option KBQualityScoreRow :=
  (db.qualityScores.filter (fun q =>
      q.outlineDocumentId == docId && !q.needsReview && q.reviewed)).foldl
    (fun acc q =>
      match acc with
      | none => some q
      | some b => if q.createdAt > b.createdAt then some q else some b) none

/-- The Python-side exclusion (lines 83-84): a log is skipped exactly when
it references a document whose latest reviewed score exists and is below
the threshold; a log with no such score passes. -/
def trainingQualityPass (db : TrainingDb) (minQualityScore : Int) (l : SupportAILog) : Bool :=
  match l.kbDocumentId with
  | none => true
  | some d =>
    match latestReviewedScore db d with
    | none => true
    | some q => decide (q.overallScore ≥ minQualityScore)

/-- Embeds `ModelTrainingDataset.build_training_batch` (defaults:
limit 500, min_confidence 0.75, min_quality_score 7), returning the
selected log rows (the source then maps them to `TrainingExample`
payloads one-to-one). -/
def buildTrainingBatch (db : TrainingDb) (limit : Nat) (minConfidence : ℚ)
    (minQualityScore : Int) : List SupportAILog :=
  ((db.logs.filter (trainingSqlFilter minConfidence)).take limit).filter
    (trainingQualityPass db minQualityScore)

/-- A resolved, helpful, high-confidence log referencing a KB document
that has no reviewed quality score at all. -/
def c3UnscoredLog : SupportAILog :=
  ⟨1, "How do I reset my password", some "Password reset", mkRat 9 10, true, false,
    some true, some "doc-without-score", 0⟩

/-- The C3 counterexample database: the referenced document has no quality
score rows whatsoever. -/
def c3Db : TrainingDb := ⟨[c3UnscoredLog], []⟩

/-- C3 counterexample: `build_training_batch` (with the default thresholds)
returns the log even though the KB document it references has no reviewed,
not-needing-review quality score — the claim says such a log is excluded,
but the source only skips a log when a score exists and is below the
threshold. -/
theorem C3_training_batch_counterexample :
    buildTrainingBatch c3Db 500 (mkRat 75 100) 7 = [c3UnscoredLog] ∧
    c3UnscoredLog.kbDocumentId = some "doc-without-score" ∧
    latestReviewedScore c3Db "doc-without-score" = none := by
  decide

/-- C3 amended: as long as the SQL filter selects at most `limit` rows,
`build_training_batch` returns exactly the logs with resolved = true,
used_in_training = false, confidence ≥ the caller threshold, and
(helpful = true, or helpful unset and confidence ≥ 0.85); a returned log
that references a KB document is excluded only when the document's latest
reviewed, not-needing-review quality score exists and is below the quality
threshold — a referenced log whose document lacks such a score is
included. -/
theorem C3_training_batch_amended (db : TrainingDb) (limit : Nat) (minConfidence : ℚ)
    (minQualityScore : Int)
    (hlim : (db.logs.filter (trainingSqlFilter minConfidence)).length ≤ limit) :
    ∀ l, l ∈ buildTrainingBatch db limit minConfidence minQualityScore ↔
      (l ∈ db.logs ∧ l.resolved = true ∧ l.usedInTraining = false ∧
        minConfidence ≤ l.confidence ∧
        (l.helpful = some true ∨ (l.helpful = none ∧ mkRat 85 100 ≤ l.confidence)) ∧
        (∀ d, l.kbDocumentId = some d →
          ∀ q, latestReviewedScore db d = some q → minQualityScore ≤ q.overallScore)) := by
  intro l
  unfold buildTrainingBatch
  rw [List.take_of_length_le hlim]
  rw [List.mem_filter, List.mem_filter]
  constructor
  · rintro ⟨⟨hmem, hsql⟩, hq⟩
    unfold trainingSqlFilter at hsql
    simp only [Bool.and_eq_true, Bool.or_eq_true, beq_iff_eq, Bool.not_eq_eq_eq_not,
      Bool.not_true, decide_eq_true_eq] at hsql
    obtain ⟨⟨⟨hres, hused⟩, hconf⟩, hhelp⟩ := hsql
    refine ⟨hmem, hres, hused, hconf, ?_, ?_⟩
    · rcases hhelp with h | ⟨h1, h2⟩
      · exact Or.inl h
      · exact Or.inr ⟨h1, h2⟩
    · intro d hd q hq2
      unfold trainingQualityPass at hq
      rw [hd] at hq
      dsimp only at hq
      rw [hq2] at hq
      simpa using hq
  · rintro ⟨hmem, hres, hused, hconf, hhelp, hqual⟩
    refine ⟨⟨hmem, ?_⟩, ?_⟩
    · unfold trainingSqlFilter
      simp only [Bool.and_eq_true, Bool.or_eq_true, beq_iff_eq, Bool.not_eq_eq_eq_not,
        Bool.not_true, decide_eq_true_eq]
      refine ⟨⟨⟨hres, hused⟩, hconf⟩, ?_⟩
      rcases hhelp with h | ⟨h1, h2⟩
      · exact Or.inl h
      · exact Or.inr ⟨h1, h2⟩
    · unfold trainingQualityPass
      cases hd : l.kbDocumentId with
      | none => rfl
      | some d =>
        dsimp only
        cases hq2 : latestReviewedScore db d with
        | none => rfl
        | some q =>
          simpa using hqual d hd q hq2

/-- A second log for the C3 witness whose document has a reviewed score of
9 (above the threshold 7). -/
def c3ScoredLog : SupportAILog :=
  ⟨1, "VPN drops every hour", some "VPN issue", mkRat 8 10, true, false,
    some true, some "doc-scored", 5⟩

/-- The reviewed, not-needing-review score of `doc-scored`. -/
def c3GoodScore : KBQualityScoreRow := ⟨"doc-scored", false, true, 9, 50⟩

/-- Witness database for C3 amended. -/
def c3WitnessDb : TrainingDb := ⟨[c3ScoredLog], [c3GoodScore]⟩

/-- Witness for C3 amended: in a one-log database whose referenced document
carries a reviewed score of 9, the log is selected by
`build_training_batch` with the default thresholds. -/
theorem C3_training_batch_amended_witness :
    c3ScoredLog ∈ buildTrainingBatch c3WitnessDb 500 (mkRat 75 100) 7 :=
  (C3_training_batch_amended c3WitnessDb 500 (mkRat 75 100) 7 (by decide)
      c3ScoredLog).mpr
    ⟨by decide, by decide, by decide, by decide, Or.inl (by decide),
     fun d hd q hq => by
      have hdd : d = "doc-scored" := by
        have : c3ScoredLog.kbDocumentId = some "doc-scored" := by decide
        rw [this] at hd
        exact (Option.some_inj.mp hd).symm
      subst hdd
      have hqq : latestReviewedScore c3WitnessDb "doc-scored" = some c3GoodScore := by decide
      rw [hqq] at hq
      rw [← Option.some_inj.mp hq]
      decide⟩

/-! ## Onboarding Lifecycle (`app/services/onboarding_service.py`) -/

/-- Embeds `app.models.onboarding.OnboardingPhase`. -/
inductive OnboardingPhase
  | notStarted
  | phase0Provisioned
  | phase1FirstValue
  | phase2CoreWorkflows
  | phase3Independent
  | completed
  | paused
  | failed
deriving DecidableEq, Repr

/-- Embeds `app.models.onboarding.OnboardingStatus`. -/
inductive OnboardingStatus
  | active
  | paused
  | completed
  | failed
deriving DecidableEq, Repr

/-- Embeds `app.models.onboarding.OnboardingSession`. -/
structure ObSession where
  id : Nat
  tenantId : Nat
  currentPhase : OnboardingPhase
  status : OnboardingStatus
  triggerSource : String
  startedAt : Int
deriving DecidableEq, Repr

/-- Embeds `app.models.onboarding.OnboardingStep`. -/
structure ObStep where
  sessionId : Nat
  phase : OnboardingPhase
  stepKey : String
  stepLabel : String
  completed : Bool
deriving DecidableEq, Repr

/-- Embeds `app.models.onboarding.TenantEntitlement` (the fields
`create_tenant_entitlements` writes). -/
structure TenantEntitlement where
  tenantId : Nat
  planTier : PlanTier
  slaPolicyId : Option Nat
  portalEnabled : Bool
  freescoutEnabled : Bool
  aiIntentClassification : Bool
  aiKbRag : Bool
  aiDraftReplies : Bool
deriving DecidableEq, Repr

/-- Embeds `app.models.audit.AuditEvent` (event type plus the tenant id
carried in the payload). -/
structure AuditRecord where
  eventType : String
  tenantId : Option Nat
deriving DecidableEq, Repr

/-- Database state seen by the onboarding service; `nextId` models the
row-id generator. -/
structure ObState where
  tenants : List Tenant
  sessions : List ObSession
  steps : List ObStep
  policies : List SLAPolicy
  entitlements : List TenantEntitlement
  audits : List AuditRecord
  nextId : Nat
deriving DecidableEq, Repr

/-- The `ONBOARDING_STEPS` lookup table. -/
def onboardingStepsTable : OnboardingPhase → List (String × String)
  | OnboardingPhase.phase0Provisioned =>
    [("aws_provisioned", "AWS Environment Provisioned"),
     ("supabase_ready", "Supabase Database Ready")]
  | OnboardingPhase.phase1FirstValue =>
    [("portal_login", "Portal Login"),
     ("first_ai_question", "First AI Question Asked"),
     ("kb_search", "Knowledge Base Search")]
  | OnboardingPhase.phase2CoreWorkflows =>
    [("first_case_created", "First Support Case Created"),
     ("case_resolved", "First Case Resolved"),
     ("email_intake", "Email Intake Received")]
  | OnboardingPhase.phase3Independent =>
    [("multiple_cases", "Multiple Cases Handled"),
     ("self_service_success", "Self-Service Success"),
     ("team_adoption", "Team Adoption")]
  | _ => []

/-- Embeds `get_or_create_tenant` (idempotent tenant creation). -/
def getOrCreateTenantOb (s : ObState) (tenantId : Nat) (tenantName : String)
    (primaryDomain : Option String) (planTier : PlanTier) : ObState :=
  match s.tenants.find? (fun t => t.id == tenantId) with
  | some _ => s
  | none =>
    { s with tenants := s.tenants ++ [⟨tenantId, tenantName, primaryDomain, planTier⟩] }

/-- Embeds `initialize_onboarding_steps`: adds each step of the phase's
checklist that is not already present for the session. -/
def initializeOnboardingSteps (s : ObState) (sessionId : Nat) (phase : OnboardingPhase) :
    ObState :=
  (onboardingStepsTable phase).foldl
    (fun st sd =>
      match st.steps.find? (fun x => x.sessionId == sessionId && x.stepKey == sd.1) with
      | some _ => st
      | none => { st with steps := st.steps ++ [⟨sessionId, phase, sd.1, sd.2, false⟩] }) s

/-- Embeds `get_or_create_sla_policy` of the onboarding service. -/
def getOrCreateSlaPolicyOb (s : ObState) (tenantId : Nat) (planTier : PlanTier) :
    SLAPolicy × ObState :=
  match s.policies.find? (fun p => p.tenantId == tenantId && p.tier == planTier) with
  | some p => (p, s)
  | none =>
    let d := getDefaultSlaPolicy planTier
    let p : SLAPolicy := ⟨s.nextId, tenantId, planTier, d.1, d.2⟩
    (p, { s with policies := s.policies ++ [p], nextId := s.nextId + 1 })

/-- Embeds `create_tenant_entitlements` (update-or-insert keyed by
tenant). -/
def createTenantEntitlements (s : ObState) (tenantId : Nat) (planTier : PlanTier)
    (slaPolicyId : Option Nat) : ObState :=
  let e : TenantEntitlement :=
    { tenantId := tenantId, planTier := planTier, slaPolicyId := slaPolicyId,
      portalEnabled := true,
      freescoutEnabled := decide (planTier = PlanTier.tier1 ∨ planTier = PlanTier.tier2),
      aiIntentClassification := true,
      aiKbRag := decide (planTier ≠ PlanTier.tier0),
      aiDraftReplies := decide (planTier = PlanTier.tier1 ∨ planTier = PlanTier.tier2) }
  match s.entitlements.find? (fun x => x.tenantId == tenantId) with
  | some _ =>
    { s with entitlements := List.map (fun x => if x.tenantId == tenantId then e else x) s.entitlements }
  | none => { s with entitlements := s.entitlements ++ [e] }

/-- Embeds `log_audit_event`. -/
def logAuditEvent (s : ObState) (eventType : String) (tenantId : Option Nat) : ObState :=
  { s with audits := s.audits ++ [⟨eventType, tenantId⟩] }

/-- Arguments of `start_onboarding`. -/
structure StartOnboardingArgs where
  tenantId : Nat
  tenantName : String
  primaryDomain : Option String
  planTier : PlanTier
  triggerSource : String
deriving DecidableEq, Repr

/-- Embeds `start_onboarding`: returns the existing session unchanged when
one exists for the tenant; otherwise creates the tenant (if absent), the
session at phase 0, the phase-0 step checklist, the SLA policy and the
entitlements, and logs one `onboarding_started` audit event. -/
def startOnboarding (s : ObState) (a : StartOnboardingArgs) (now : Int) :
    ObSession × ObState :=
  match s.sessions.find? (fun ss => ss.tenantId == a.tenantId) with
  | some existing => (existing, s)
  | none =>
    let s1 := getOrCreateTenantOb s a.tenantId a.tenantName a.primaryDomain a.planTier
    let sess : ObSession := ⟨s1.nextId, a.tenantId, OnboardingPhase.phase0Provisioned,
      OnboardingStatus.active, a.triggerSource, now⟩
    let s2 := { s1 with sessions := s1.sessions ++ [sess], nextId := s1.nextId + 1 }
    let s3 := initializeOnboardingSteps s2 sess.id OnboardingPhase.phase0Provisioned
    let ps4 := getOrCreateSlaPolicyOb s3 a.tenantId a.planTier
    let s5 := createTenantEntitlements ps4.2 a.tenantId a.planTier (some ps4.1.id)
    let s6 := logAuditEvent s5 "onboarding_started" (some a.tenantId)
    (sess, s6)

/-- Number of `onboarding_started` audit records for one tenant. -/
def countStartedAudits (s : ObState) (tenantId : Nat) : Nat :=
  (s.audits.filter (fun a =>
    a.eventType == "onboarding_started" && a.tenantId == some tenantId)).length

theorem find?_append_of_none {α : Type} (p : α → Bool) (l1 l2 : List α)
    (h : l1.find? p = none) : (l1 ++ l2).find? p = l2.find? p := by
  induction l1 with
  | nil => rfl
  | cons hd tl ih =>
    cases hp : p hd with
    | true =>
      rw [List.find?_cons_of_pos _ hp] at h
      exact absurd h (by simp)
    | false =>
      rw [List.cons_append, List.find?_cons_of_neg _ (by simp [hp])]
      rw [List.find?_cons_of_neg _ (by simp [hp])] at h
      exact ih h

theorem getOrCreateTenantOb_sessions (s : ObState) (tid : Nat) (n : String)
    (d : Option String) (pt : PlanTier) :
    (getOrCreateTenantOb s tid n d pt).sessions = s.sessions ∧
    (getOrCreateTenantOb s tid n d pt).audits = s.audits ∧
    (getOrCreateTenantOb s tid n d pt).nextId = s.nextId := by
  unfold getOrCreateTenantOb
  split <;> exact ⟨rfl, rfl, rfl⟩

theorem initializeOnboardingSteps_sessions (s : ObState) (sid : Nat)
    (ph : OnboardingPhase) :
    (initializeOnboardingSteps s sid ph).sessions = s.sessions ∧
    (initializeOnboardingSteps s sid ph).audits = s.audits := by
  unfold initializeOnboardingSteps
  generalize onboardingStepsTable ph = L
  induction L generalizing s with
  | nil => exact ⟨rfl, rfl⟩
  | cons hd tl ih =>
    rw [List.foldl_cons]
    refine (ih _).imp (fun h => h.trans ?_) (fun h => h.trans ?_) <;>
      split <;> rfl

theorem getOrCreateSlaPolicyOb_sessions (s : ObState) (tid : Nat) (pt : PlanTier) :
    (getOrCreateSlaPolicyOb s tid pt).2.sessions = s.sessions ∧
    (getOrCreateSlaPolicyOb s tid pt).2.audits = s.audits := by
  unfold getOrCreateSlaPolicyOb
  split <;> exact ⟨rfl, rfl⟩

theorem createTenantEntitlements_sessions (s : ObState) (tid : Nat) (pt : PlanTier)
    (pid : Option Nat) :
    (createTenantEntitlements s tid pt pid).sessions = s.sessions ∧
    (createTenantEntitlements s tid pt pid).audits = s.audits := by
  unfold createTenantEntitlements
  split <;> exact ⟨rfl, rfl⟩

theorem logAuditEvent_sessions (s : ObState) (e : String) (t : Option Nat) :
    (logAuditEvent s e t).sessions = s.sessions := rfl

theorem startOnboarding_find? (s : ObState) (a : StartOnboardingArgs) (now : Int) :
    (startOnboarding s a now).2.sessions.find? (fun ss => ss.tenantId == a.tenantId) =
      some (startOnboarding s a now).1 := by
  unfold startOnboarding
  cases hf : s.sessions.find? (fun ss => ss.tenantId == a.tenantId) with
  | some e => exact hf
  | none =>
    dsimp only
    rw [logAuditEvent_sessions,
      (createTenantEntitlements_sessions _ _ _ _).1,
      (getOrCreateSlaPolicyOb_sessions _ _ _).1,
      (initializeOnboardingSteps_sessions _ _ _).1]
    dsimp only
    rw [find?_append_of_none _ _ _ (by rw [(getOrCreateTenantOb_sessions s a.tenantId
      a.tenantName a.primaryDomain a.planTier).1]; exact hf)]
    rw [List.find?_cons_of_pos _ (by simp)]

theorem startOnboarding_audits_count (s : ObState) (a : StartOnboardingArgs) (now : Int)
    (h : s.sessions.find? (fun ss => ss.tenantId == a.tenantId) = none) :
    countStartedAudits (startOnboarding s a now).2 a.tenantId =
      countStartedAudits s a.tenantId + 1 := by
  unfold startOnboarding
  rw [h]
  dsimp only
  unfold countStartedAudits logAuditEvent
  dsimp only
  rw [(createTenantEntitlements_sessions _ _ _ _).2,
    (getOrCreateSlaPolicyOb_sessions _ _ _).2,
    (initializeOnboardingSteps_sessions _ _ _).2]
  dsimp only
  rw [(getOrCreateTenantOb_sessions s a.tenantId a.tenantName a.primaryDomain a.planTier).2.1]
  rw [List.filter_append, List.length_append]
  simp

/-- C9: `start_onboarding` is idempotent.  (1) From any state, a second
call with identical arguments returns the very session of the first call
and leaves the state completely unchanged — in particular no new steps, no
policy, entitlement or tenant changes, and no second audit record.  (2)
Starting from a state with no session and no `onboarding_started` audit
record for the tenant, after the first call and any number of further
identical calls exactly one `onboarding_started` audit record exists for
the tenant. -/
theorem C9_start_onboarding_idempotent (s : ObState) (a : StartOnboardingArgs) (now : Int) :
    (∀ now2 : Int,
      (startOnboarding (startOnboarding s a now).2 a now2).1 = (startOnboarding s a now).1 ∧
      (startOnboarding (startOnboarding s a now).2 a now2).2 = (startOnboarding s a now).2) ∧
    (s.sessions.find? (fun ss => ss.tenantId == a.tenantId) = none →
      countStartedAudits s a.tenantId = 0 →
      ∀ times : List Int,
        countStartedAudits
          (times.foldl (fun st t2 => (startOnboarding st a t2).2)
            (startOnboarding s a now).2) a.tenantId = 1) := by
  have hfix : ∀ now2 : Int,
      startOnboarding (startOnboarding s a now).2 a now2 =
        ((startOnboarding s a now).1, (startOnboarding s a now).2) := by
    intro now2
    have hfind := startOnboarding_find? s a now
    set r := startOnboarding s a now with hr
    show startOnboarding r.2 a now2 = (r.1, r.2)
    unfold startOnboarding
    rw [hfind]
  refine ⟨fun now2 => by rw [hfix now2]; exact ⟨rfl, rfl⟩, ?_⟩
  intro hnone h0 times
  have hcount : countStartedAudits (startOnboarding s a now).2 a.tenantId = 1 := by
    rw [startOnboarding_audits_count s a now hnone, h0]
  have hfold : times.foldl (fun st t2 => (startOnboarding st a t2).2)
      (startOnboarding s a now).2 = (startOnboarding s a now).2 := by
    induction times with
    | nil => rfl
    | cons hd tl ih =>
      rw [List.foldl_cons, hfix hd]
      exact ih
  rw [hfold, hcount]

/-- Fresh state and arguments for the C9 witness. -/
def c9EmptyState : ObState := ⟨[], [], [], [], [], [], 1⟩

/-- Arguments of the witness calls. -/
def c9Args : StartOnboardingArgs :=
  ⟨7, "NewCo", some "newco.com", PlanTier.tier1, "supabase_registration"⟩

/-- Witness for C9: from an empty state, the second call returns the first
call's session with the state unchanged, and after three further calls
exactly one `onboarding_started` audit record exists for the tenant. -/
theorem C9_start_onboarding_idempotent_witness :
    ((startOnboarding (startOnboarding c9EmptyState c9Args 5).2 c9Args 9).1 =
      (startOnboarding c9EmptyState c9Args 5).1 ∧
     (startOnboarding (startOnboarding c9EmptyState c9Args 5).2 c9Args 9).2 =
      (startOnboarding c9EmptyState c9Args 5).2) ∧
    countStartedAudits
      ([6, 7, 8].foldl (fun st t2 => (startOnboarding st c9Args t2).2)
        (startOnboarding c9EmptyState c9Args 5).2) 7 = 1 :=
  ⟨(C9_start_onboarding_idempotent c9EmptyState c9Args 5).1 9,
   (C9_start_onboarding_idempotent c9EmptyState c9Args 5).2 (by decide) (by decide) [6, 7, 8]⟩
